import Mathlib

/-!
Verification of the market-observation / signal pipeline ("Bot_for_invasement").

Shallow embedding of the components under study:
* `RM`  — CAPA 5 `risk_manager.py` (`RiskManager`)
* `EM`  — CAPA 3 `error_memory_rag.py` (`ErrorMemoryRAG`)
* `TA`  — CAPA 2 `technical_analyzer.py` (`TechnicalAnalyzer`)
* `PE`  — CAPA 2 `probability_engine.py` (`QuantitativeProbabilityEngine`)
* `MDS` — CAPA 1 `market_data_stream.py` (`MarketSchedule`, `MarketDataStream`)

Python floats are modelled as exact rationals (`ℚ`); the one place where the
code produces IEEE NaN (a pandas `0/0`) is modelled explicitly with `TA.PFloat`,
and square roots (numpy `std`) are modelled over `ℝ`.  Wall-clock time is
modelled as seconds (`ℕ`); calendar dates as day numbers (`ℕ`).
-/

namespace RM

/-- Severity tags returned by `RiskManager.check_risk_approval`
(`risk_level` field of the result dict). -/
inductive RiskLevel where
  | low
  | medium
  | high
  | critical
deriving DecidableEq, Repr

/-- The `reason` strings of `check_risk_approval`, as structured tags
(the Python code returns formatted Spanish strings; only their identity
matters to the checks). -/
inductive RiskReason where
  | blockedByConsecutiveLosses
  | dailyLimitReached (total_loss : ℚ)
  | consecutiveLossesCooldown (max_losses : ℕ)
  | extremeVolatility (vol : ℚ)
  | insufficientConfidence (conf : ℚ)
  | invalidDecision
  | allChecksPassed
deriving DecidableEq, Repr

/-- Result dict of `check_risk_approval`. -/
structure RiskResult where
  approved : Bool
  reason : RiskReason
  risk_level : RiskLevel
deriving DecidableEq, Repr

/-- One entry of `daily_stats['last_trades']`
(`{'time': ..., 'result': ..., 'amount': ...}`). -/
structure TradeRecord where
  time : ℕ
  result : String
  amount : ℚ
deriving DecidableEq, Repr

/-- The `daily_stats` dict of `RiskManager`
(created by `_load_daily_stats`, mutated by `record_trade_result` and
`_apply_cooldown`).  `date` is a calendar-day number, `blocked_until`
a wall-clock instant in seconds. -/
structure DailyStats where
  date : ℕ
  total_loss : ℚ
  consecutive_losses : ℕ
  total_trades : ℕ
  blocked_until : Option ℕ
  last_trades : List TradeRecord
deriving DecidableEq, Repr

/-- Constructor configuration of `RiskManager.__init__`. -/
structure RiskConfig where
  max_daily_loss : ℚ
  max_consecutive_losses : ℕ
deriving DecidableEq, Repr

/-- `RiskManager(max_daily_loss=100.0, max_consecutive_losses=3)` defaults. -/
def defaultRiskConfig : RiskConfig := ⟨100, 3⟩

/-- Fresh daily record built by `_load_daily_stats` when no file matches
today's date. -/
def fresh_daily_stats (today : ℕ) : DailyStats :=
  { date := today
    total_loss := 0
    consecutive_losses := 0
    total_trades := 0
    blocked_until := none
    last_trades := [] }

/-- `RiskManager._save_daily_stats`: writes the current stats to
`daily_trades.json`.  The file contents are modelled as
`Option DailyStats` (`none` = missing/corrupt). -/
def save_daily_stats (stats : DailyStats) : Option DailyStats := some stats

/-- `RiskManager._load_daily_stats`: returns the persisted record when its
`date` equals today, otherwise a fresh zeroed record (also on a
missing/corrupt file). -/
def load_daily_stats (file : Option DailyStats) (today : ℕ) : DailyStats :=
  match file with
  | some data => if data.date = today then data else fresh_daily_stats today
  | none => fresh_daily_stats today

/-- `RiskManager._is_temporarily_blocked`: true while `now` is strictly
before the recorded `blocked_until` instant. -/
def is_temporarily_blocked (stats : DailyStats) (now : ℕ) : Bool :=
  match stats.blocked_until with
  | none => false
  | some b => now < b

/-- `RiskManager._apply_cooldown(minutes=30)`: sets
`blocked_until = now + minutes`. -/
def apply_cooldown (stats : DailyStats) (now : ℕ) (minutes : ℕ) : DailyStats :=
  { stats with blocked_until := some (now + minutes * 60) }

/-- `RiskManager.check_risk_approval`: the six sequential checks, first
failure wins.  Returns the result dict together with the (possibly
cooldown-updated) stats. -/
def check_risk_approval (cfg : RiskConfig) (stats : DailyStats) (now : ℕ)
    (ai_decision : String) (confidence : ℚ) (market_volatility : ℚ) :
    RiskResult × DailyStats :=
  if is_temporarily_blocked stats now then
    (⟨false, .blockedByConsecutiveLosses, .critical⟩, stats)
  else if cfg.max_daily_loss ≤ stats.total_loss then
    (⟨false, .dailyLimitReached stats.total_loss, .critical⟩, stats)
  else if cfg.max_consecutive_losses ≤ stats.consecutive_losses then
    (⟨false, .consecutiveLossesCooldown cfg.max_consecutive_losses, .high⟩,
      apply_cooldown stats now 30)
  else if 2 < market_volatility then
    (⟨false, .extremeVolatility market_volatility, .high⟩, stats)
  else if confidence < 60 then
    (⟨false, .insufficientConfidence confidence, .medium⟩, stats)
  else if ai_decision ≠ "CALL" ∧ ai_decision ≠ "PUT" then
    (⟨false, .invalidDecision, .low⟩, stats)
  else
    (⟨true, .allChecksPassed, .low⟩, stats)

/-- `RiskManager.record_trade_result`: on `'LOSS'` adds the amount to
today's loss and bumps the consecutive-loss counter, otherwise resets the
counter; always appends to the last-10 trade history. -/
def record_trade_result (stats : DailyStats) (now : ℕ) (result : String)
    (amount : ℚ) : DailyStats :=
  let stats1 := { stats with total_trades := stats.total_trades + 1 }
  let stats2 :=
    if result = "LOSS" then
      { stats1 with
        total_loss := stats1.total_loss + amount
        consecutive_losses := stats1.consecutive_losses + 1 }
    else
      { stats1 with consecutive_losses := 0 }
  let trades := stats2.last_trades ++ [⟨now, result, amount⟩]
  { stats2 with
    last_trades := if 10 < trades.length then trades.drop (trades.length - 10) else trades }

end RM

namespace EM

/-- The error-memory snapshot produced by
`ErrorMemoryRAG.analyze_recent_errors` / `_extract_error_patterns`
(the fields read by `calculate_risk_adjustment`).  The
`value_counts()` dicts are modelled as association lists. -/
structure ErrorMemorySnapshot where
  total_recent_losses : ℕ
  signal_distribution : List (String × ℕ)
  market_distribution : List (String × ℕ)
  trigger_distribution : List (String × ℕ)
  high_confidence_failures : ℕ
deriving DecidableEq, Repr

/-- The `current_context` dict passed to `calculate_risk_adjustment`. -/
structure CurrentContext where
  signal : String
  market_state : String
  technical_trigger : String
deriving DecidableEq, Repr

/-- Result of `calculate_risk_adjustment` (the `risk_reasons` list of
human-readable strings is not modelled; it carries no decision weight). -/
structure RiskAdjustment where
  confidence_penalty : ℕ
  should_be_neutral : Bool
deriving DecidableEq, Repr

/-- `ErrorMemoryRAG.calculate_risk_adjustment`: additive penalties
(+15 / +10 for total recent losses, +20 for a repeated failing signal,
+15 for OTC failures, +12 for a repeated failing trigger, +8 for
overconfidence), capped at 40; `should_be_neutral` when the uncapped
total reaches 30. -/
def calculate_risk_adjustment (current_context : CurrentContext)
    (error_memory : ErrorMemorySnapshot) : RiskAdjustment :=
  let p_total : ℕ :=
    if 5 ≤ error_memory.total_recent_losses then 15
    else if 3 ≤ error_memory.total_recent_losses then 10
    else 0
  let p_signal : ℕ :=
    match List.lookup current_context.signal error_memory.signal_distribution with
    | some c => if 2 ≤ c then 20 else 0
    | none => 0
  let p_market : ℕ :=
    if current_context.market_state = "OTC_ESTIMATED" then
      if 2 ≤ (List.lookup "OTC_ESTIMATED" error_memory.market_distribution).getD 0 then 15 else 0
    else 0
  let p_trigger : ℕ :=
    match List.lookup current_context.technical_trigger error_memory.trigger_distribution with
    | some c => if 2 ≤ c then 12 else 0
    | none => 0
  let p_conf : ℕ :=
    if 2 ≤ error_memory.high_confidence_failures then 8 else 0
  let base := p_total + p_signal + p_market + p_trigger + p_conf
  { confidence_penalty := min base 40
    should_be_neutral := 30 ≤ base }

end EM

namespace TA

/-- Mean of a float series (`pandas.Series.mean`); `0` on the empty series,
matching the `if not prices.empty else 0.0` guards in the source. -/
def mean (l : List ℚ) : ℚ := l.sum / l.length

/-- The last `n` entries of a list (a full rolling window ending at the
series' last index). -/
def lastN (n : ℕ) (l : List ℚ) : List ℚ := l.drop (l.length - n)

/-- `prices.diff()` without its leading NaN: `[p₁-p₀, p₂-p₁, …]`. -/
def diffs (l : List ℚ) : List ℚ := List.zipWith (fun a b => a - b) l.tail l

/-- A pandas float that is either a number or IEEE NaN. -/
inductive PFloat where
  | nan : PFloat
  | num : ℚ → PFloat
deriving DecidableEq, Repr

/-- The tail of `TechnicalAnalyzer.calculate_rsi`:
`rs = gain / loss; rsi = 100 - 100/(1+rs)` under pandas float semantics:
`0/0 = NaN` (which propagates), `g/0 = +inf` for `g > 0`
(and `100 - 100/(1+inf) = 100`). -/
def rsiFromGainLoss (gain loss : ℚ) : PFloat :=
  if loss = 0 then
    (if gain = 0 then PFloat.nan else PFloat.num 100)
  else PFloat.num (100 - 100 / (1 + gain / loss))

/-- `TechnicalAnalyzer.calculate_rsi(prices, period)`: returns the neutral
`50.0` when the series is shorter than `period + 1`; otherwise the
Wilder-style RSI from the last rolling window of gains and losses
(`delta.where(delta > 0, 0).rolling(period).mean()` at the final index is
the plain mean of the last `period` gains, since `len ≥ period + 1`
keeps the NaN-derived leading `0` out of the window). -/
def calculate_rsi (prices : List ℚ) (period : ℕ) : PFloat :=
  if prices.length < period + 1 then PFloat.num 50
  else
    let delta := diffs prices
    let gains := delta.map (fun d => if 0 < d then d else 0)
    let losses := delta.map (fun d => if d < 0 then -d else 0)
    let gain := (lastN period gains).sum / (period : ℚ)
    let loss := (lastN period losses).sum / (period : ℚ)
    rsiFromGainLoss gain loss

/-- Sample variance (pandas `rolling(...).std()` uses `ddof = 1`);
`0` below two observations. -/
def sampleVar (l : List ℚ) : ℚ :=
  if l.length < 2 then 0
  else (l.map (fun x => (x - mean l) ^ 2)).sum / ((l.length : ℚ) - 1)

/-- Population variance (numpy `std`, `ddof = 0`); `0` on the empty list. -/
def popVar (l : List ℚ) : ℚ :=
  if l.length = 0 then 0
  else (l.map (fun x => (x - mean l) ^ 2)).sum / (l.length : ℚ)

/-- `TechnicalAnalyzer.calculate_bollinger_bands(prices, period, std_dev)`:
`(upper, middle, lower) = (sma + std·k, sma, sma − std·k)` over the final
rolling window; the whole-series mean repeated three ways when the series
is shorter than the period. -/
noncomputable def calculate_bollinger_bands (prices : List ℚ) (period : ℕ)
    (std_dev : ℚ) : ℝ × ℝ × ℝ :=
  if prices.length < period then
    ((mean prices : ℚ), (mean prices : ℚ), (mean prices : ℚ))
  else
    let window := lastN period prices
    let sma : ℝ := (mean window : ℚ)
    let std : ℝ := Real.sqrt (sampleVar window)
    (sma + std * (std_dev : ℚ), sma, sma - std * (std_dev : ℚ))

/-- `TechnicalAnalyzer.calculate_bb_position`: `0.5` on collapsed bands,
otherwise the position clipped to `[0, 1]`. -/
noncomputable def calculate_bb_position (current_price : ℚ) (bb_upper bb_lower : ℝ) : ℝ :=
  if bb_upper = bb_lower then 1 / 2
  else max 0 (min 1 (((current_price : ℝ) - bb_lower) / (bb_upper - bb_lower)))

/-- Floor of a rational. -/
def ratFloor (x : ℚ) : ℤ := ⌊x⌋

/-- Python 3 `round` to an integer: round half to even. -/
def roundHalfEven (x : ℚ) : ℤ :=
  let n := ratFloor x
  let frac := x - n
  if frac < 1 / 2 then n
  else if 1 / 2 < frac then n + 1
  else if n % 2 = 0 then n else n + 1

/-- Python `round(x, ndigits)` on rationals. -/
def pyRound (x : ℚ) (ndigits : ℕ) : ℚ :=
  (roundHalfEven (x * 10 ^ ndigits) : ℚ) / 10 ^ ndigits

/-- `roundHalfEven` over the reals (for the numpy-`std`-derived feature). -/
noncomputable def roundHalfEvenR (x : ℝ) : ℤ :=
  let n := ⌊x⌋
  let frac := x - n
  if frac < 1 / 2 then n
  else if 1 / 2 < frac then n + 1
  else if n % 2 = 0 then n else n + 1

/-- Python `round(x, ndigits)` over the reals. -/
noncomputable def pyRoundR (x : ℝ) (ndigits : ℕ) : ℝ :=
  (roundHalfEvenR (x * 10 ^ ndigits) : ℤ) / 10 ^ ndigits

/-- `np.polyfit(x, y, 1)` slope for `x = 0, 1, …, len(y)−1`:
the least-squares slope `Σ(xᵢ−x̄)(yᵢ−ȳ) / Σ(xᵢ−x̄)²`. -/
def polyfitSlope (ys : List ℚ) : ℚ :=
  let m := ys.length
  let xbar : ℚ := ((m : ℚ) - 1) / 2
  let ybar := mean ys
  let num := (((List.range m).zip ys).map
    (fun p => ((p.1 : ℚ) - xbar) * (p.2 - ybar))).sum
  let den := ((List.range m).map (fun i => ((i : ℚ) - xbar) ^ 2)).sum
  num / den

/-- The `micro_features` dict built by
`TechnicalAnalyzer._calculate_micro_features`. -/
structure MicroFeatures where
  micro_trend : ℚ
  micro_volatility : ℝ
  gap_friday : ℚ

/-- `TechnicalAnalyzer._calculate_micro_features(weekend_prices,
friday_close, current_price)`: with fewer than two weekend samples the
trend/volatility features are zero and the gap is returned *unrounded*
(guarded only against `friday_close == 0`); otherwise the slope of the
last ≤5 samples (in pips, rounded to 2), the numpy population standard
deviation of the last ≤10 samples (in pips, rounded to 2), and the
percentage gap from the Friday close rounded to 4 decimals. -/
noncomputable def calculate_micro_features (weekend_prices : List ℚ)
    (friday_close current_price : ℚ) : MicroFeatures :=
  if weekend_prices.length < 2 then
    { micro_trend := 0
      micro_volatility := 0
      gap_friday :=
        if friday_close = 0 then 0
        else (current_price - friday_close) / friday_close * 100 }
  else
    let trend_prices :=
      if 5 ≤ weekend_prices.length then lastN 5 weekend_prices else weekend_prices
    let micro_trend : ℚ :=
      if 2 ≤ trend_prices.length then polyfitSlope trend_prices * 10000 else 0
    let vol_prices :=
      if 10 ≤ weekend_prices.length then lastN 10 weekend_prices else weekend_prices
    let micro_volatility : ℝ :=
      if 1 < vol_prices.length then Real.sqrt (popVar vol_prices) * 10000 else 0
    let gap_friday : ℚ :=
      if 0 < friday_close ∧ 0 < current_price then
        (current_price - friday_close) / friday_close * 100
      else 0
    { micro_trend := pyRound micro_trend 2
      micro_volatility := pyRoundR micro_volatility 2
      gap_friday := pyRound gap_friday 4 }

/-- The `TechnicalIndicators` dataclass. -/
structure TechnicalIndicators where
  rsi : ℚ
  ema_20 : ℚ
  ema_50 : ℚ
  bb_upper : ℚ
  bb_middle : ℚ
  bb_lower : ℚ
  bb_position : ℚ
  volume_sma : ℚ
  price_change_pct : ℚ
  volatility : ℚ
deriving DecidableEq, Repr

/-- `TechnicalAnalyzer.should_wake_ai_weekend(indicators, df, micro_features)`:
hard veto to `False` when `micro_volatility` exceeds the fixed 15-pip
threshold; otherwise RSI beyond `[25, 75]`, or a band breach by the last
close, or a Friday gap above `0.5%`.  An empty close series makes
`df['close'].iloc[-1]` raise, which the blanket `except` maps to `False`
(modelled by the `none` branch). -/
noncomputable def should_wake_ai_weekend (indicators : TechnicalIndicators)
    (closes : List ℚ) (micro_features : MicroFeatures) : Bool :=
  if 15 < micro_features.micro_volatility then false
  else
    match closes.getLast? with
    | none => false
    | some current_price =>
      (indicators.rsi > 75 || indicators.rsi < 25)
        || (indicators.bb_upper ≤ current_price || current_price ≤ indicators.bb_lower)
        || (1 / 2 < |micro_features.gap_friday|)

end TA

namespace PE

/-- The `QuantitativeIndicators` dataclass of `probability_engine.py`. -/
structure QuantitativeIndicators where
  ema_fast : ℚ
  ema_slow : ℚ
  ema_signal : ℚ
  sma_20 : ℚ
  sma_50 : ℚ
  trend_strength : ℚ
  rsi : ℚ
  rsi_normalized : ℚ
  momentum : ℚ
  momentum_normalized : ℚ
  roc : ℚ
  bb_upper : ℚ
  bb_middle : ℚ
  bb_lower : ℚ
  bb_position : ℚ
  bb_squeeze : ℚ
  zscore : ℚ
  volume_sma : ℚ
  volume_ratio : ℚ
  vwap : ℚ
  vwap_signal : ℚ
  atr : ℚ
  atr_normalized : ℚ
  volatility : ℚ
  volatility_percentile : ℚ
  support_resistance_score : ℚ
  fractal_dimension : ℚ
  hurst_exponent : ℚ

/-- The `MarketRegime` dataclass (argument of
`calculate_probability_scores`; the function does not read it). -/
structure MarketRegime where
  primary_trend : String
  trend_strength : ℚ
  volatility_regime : String
  volume_regime : String
  market_phase : String
  confidence : ℚ
deriving DecidableEq, Repr

/-- `config.quantitative.weights`: the six score weights. -/
structure Weights where
  trend : ℚ
  momentum : ℚ
  mean_reversion : ℚ
  volume : ℚ
  volatility : ℚ
  structureW : ℚ
deriving DecidableEq, Repr

/-- The `ProbabilityScore` dataclass.  The `confidence` field
(`(1 − std of four signals)·100`, an irrational square root) is not
carried here: none of the properties under study mention it. -/
structure ProbabilityScore where
  total_score : ℚ
  direction : String
  trend_score : ℚ
  momentum_score : ℚ
  mean_reversion_score : ℚ
  volume_score : ℚ
  volatility_score : ℚ
  structure_score : ℚ
  reversal_probability : ℚ
  continuation_probability : ℚ
deriving DecidableEq, Repr

/-- `QuantitativeProbabilityEngine.calculate_probability_scores`:
six sub-scores (trend, momentum and mean-reversion clamped by
`max(0, min(100, ·))`, volatility likewise; volume only capped above by
`min(volume_ratio·50, 100)`; structure passed through verbatim), the
weighted total, and the consensus direction with the continuation /
reversal probabilities. -/
def calculate_probability_scores (weights : Weights)
    (indicators : QuantitativeIndicators) (_regime : MarketRegime) :
    ProbabilityScore :=
  let trend_score :=
    max 0 (min 100 (50 + indicators.ema_signal * 25 + indicators.vwap_signal * 25))
  let rsi_momentum := 50 + indicators.rsi_normalized * 30
  let price_momentum := 50 + indicators.momentum_normalized * 50
  let momentum_score := max 0 (min 100 ((rsi_momentum + price_momentum) / 2))
  let bb_reversion := |indicators.bb_position - 1 / 2| * 100
  let zscore_reversion := min (|indicators.zscore| * 20) 50
  let mean_reversion_score := max 0 (min 100 (bb_reversion + zscore_reversion))
  let volume_score := min (indicators.volume_ratio * 50) 100
  let volatility_score := max 0 (min 100 (100 - indicators.volatility_percentile))
  let structure_score := indicators.support_resistance_score
  let total_score :=
    trend_score * weights.trend
      + momentum_score * weights.momentum
      + mean_reversion_score * weights.mean_reversion
      + volume_score * weights.volume
      + volatility_score * weights.volatility
      + structure_score * weights.structureW
  let direction_consensus :=
    (indicators.ema_signal + indicators.rsi_normalized
      + indicators.momentum_normalized + indicators.vwap_signal) / 4
  let direction :=
    if 1 / 5 < direction_consensus then "bullish"
    else if direction_consensus < -(1 / 5) then "bearish"
    else "neutral"
  let probs : ℚ × ℚ :=
    if direction = "bullish" then (total_score, 100 - total_score)
    else if direction = "bearish" then (100 - total_score, total_score)
    else (50, 50)
  { total_score := total_score
    direction := direction
    trend_score := trend_score
    momentum_score := momentum_score
    mean_reversion_score := mean_reversion_score
    volume_score := volume_score
    volatility_score := volatility_score
    structure_score := structure_score
    reversal_probability := probs.2
    continuation_probability := probs.1 }

end PE

namespace MDS

/-- `MarketSchedule.is_market_open` as a function of the current weekday
(`0 = Monday … 6 = Sunday`) and hour: closed all Saturday, closed Sunday
before 22:00, closed Friday from 22:00, open otherwise. -/
def is_market_open (weekday hour : ℕ) : Bool :=
  if weekday = 5 then false
  else if weekday = 6 then decide (22 ≤ hour)
  else if weekday = 4 then decide (hour < 22)
  else true

/-- `MarketSchedule.is_friday_close`: Friday from 21:00. -/
def is_friday_close (weekday hour : ℕ) : Bool :=
  decide (weekday = 4 ∧ 21 ≤ hour)

/-- The `MarketTick` dataclass (`open` is a Lean keyword, hence `open_`). -/
structure MarketTick where
  symbol : String
  timestamp : ℕ
  open_ : ℚ
  high : ℚ
  low : ℚ
  close : ℚ
  volume : ℕ
  source : String
  data_source_tag : String
deriving DecidableEq, Repr

/-- The degenerate OTC tick built inside
`MarketDataStream._on_weekend_price` from one price sample:
`open = high = low = close = price`, `volume = 1`,
`source = "ocr"` for `OCR_LIVE` and `"mock"` otherwise. -/
def mk_weekend_tick (symbol : String) (timestamp : ℕ) (price : ℚ)
    (source_tag : String) : MarketTick :=
  { symbol := symbol
    timestamp := timestamp
    open_ := price
    high := price
    low := price
    close := price
    volume := 1
    source := if source_tag = "OCR_LIVE" then "ocr" else "mock"
    data_source_tag := source_tag }

/-- Python attribute-access failure. -/
inductive PyErr where
  | attributeError
deriving DecidableEq, Repr

/-- The `market_mode` field (`"unknown"`, `"live"`, `"weekend_otc"`). -/
inductive MarketMode where
  | unknown
  | live
  | weekend_otc
deriving DecidableEq, Repr

/-- The instance attributes assigned by `MarketDataStream.__init__`.
`symbol : Option String` records that `__init__` forwards its `symbol`
argument to `WeekendCache` (`weekend_cache_symbol`) but never assigns
`self.symbol`, so the attribute is absent (`none`). -/
structure StreamState where
  symbol : Option String
  weekend_cache_symbol : String
  running : Bool
  current_price : ℚ
  market_mode : MarketMode
  friday_close_price : ℚ
  historical_buffer : List MarketTick
  weekend_buffer : List MarketTick
deriving DecidableEq, Repr

/-- `MarketDataStream.__init__(symbol, search_region)`. -/
def init_stream (symbol : String) : StreamState :=
  { symbol := none
    weekend_cache_symbol := symbol
    running := false
    current_price := 0
    market_mode := .unknown
    friday_close_price := 0
    historical_buffer := []
    weekend_buffer := [] }

/-- Reading `self.symbol`: `AttributeError` when the attribute was never
assigned. -/
def readSymbol (st : StreamState) : Except PyErr String :=
  match st.symbol with
  | some s => .ok s
  | none => .error .attributeError

/-- `MarketDataStream.stop_stream`: clears `running`, saves the weekend
buffer (an external write), closes the tracker, then reaches the final
`print(f"... {self.symbol}")`, whose attribute read fails. -/
def stop_stream (st : StreamState) : Except PyErr StreamState :=
  let st1 := { st with running := false }
  (readSymbol st1).map (fun _ => st1)

/-- Result dict of `get_buffer_status`. -/
structure BufferStatus where
  symbol : String
  market_mode : MarketMode
  historical_size : ℕ
  weekend_size : ℕ
  current_price : ℚ
  friday_close : ℚ
  is_open : Bool
deriving DecidableEq, Repr

/-- `MarketDataStream.get_buffer_status`: builds the status dict, whose
first entry reads `self.symbol`. -/
def get_buffer_status (st : StreamState) (weekday hour : ℕ) :
    Except PyErr BufferStatus :=
  (readSymbol st).map (fun s =>
    { symbol := s
      market_mode := st.market_mode
      historical_size := st.historical_buffer.length
      weekend_size := st.weekend_buffer.length
      current_price := st.current_price
      friday_close := st.friday_close_price
      is_open := is_market_open weekday hour })

/-- One row of the externally fetched `yfinance` history window. -/
structure CandleRow where
  timestamp : ℕ
  open_ : ℚ
  high : ℚ
  low : ℚ
  close : ℚ
  volume : ℕ
deriving DecidableEq, Repr

/-- A `yfinance` tick as built by `_update_historical_buffer`. -/
def mk_yfinance_tick (symbol : String) (r : CandleRow) : MarketTick :=
  { symbol := symbol
    timestamp := r.timestamp
    open_ := r.open_
    high := r.high
    low := r.low
    close := r.close
    volume := r.volume
    source := "yfinance"
    data_source_tag := "UNKNOWN" }

/-- The body of `MarketDataStream._handle_live_market` (inside its `try`):
switch to weekend mode when the market is closed; otherwise
`yf.Ticker(self.symbol)` reads the absent attribute before the external
fetch (whose result window is the `hist_data` parameter) could be used.
On a non-empty window the historical buffer is fully replaced
(`deque(maxlen=1200)`) and, near the Friday close, the last close is
recorded as the reference price. -/
def handle_live_market_body (st : StreamState) (weekday hour : ℕ)
    (hist_data : List CandleRow) : Except PyErr StreamState :=
  if is_market_open weekday hour then
    match readSymbol st with
    | .error e => .error e
    | .ok sym =>
      match hist_data.getLast? with
      | none => .ok st
      | some lastRow =>
        let ticks := hist_data.map (fun r => mk_yfinance_tick sym r)
        let st1 := { st with
          historical_buffer := ticks.drop (ticks.length - 1200)
          current_price := lastRow.close }
        let st2 :=
          if is_friday_close weekday hour then
            { st1 with friday_close_price := lastRow.close }
          else st1
        .ok st2
  else
    .ok { st with market_mode := .weekend_otc }

/-- `MarketDataStream._handle_live_market`: the blanket
`except Exception` swallows any error from the body (prints and falls
through), so the method itself always returns, leaving the state
unchanged on an internal error. -/
def handle_live_market (st : StreamState) (weekday hour : ℕ)
    (hist_data : List CandleRow) : StreamState :=
  match handle_live_market_body st weekday hour hist_data with
  | .error _ => st
  | .ok st2 => st2

end MDS

/-! ## Properties -/

/-- C3: for every indicator set, close-price history and micro-feature
record, a micro-volatility above the fixed 15-pip threshold forces
`should_wake_ai_weekend` to `False`, regardless of RSI, band breach or
Friday gap: the veto is checked first and returns immediately. -/
theorem C3_micro_volatility_veto (indicators : TA.TechnicalIndicators)
    (closes : List ℚ) (micro_features : TA.MicroFeatures)
    (h : 15 < micro_features.micro_volatility) :
    TA.should_wake_ai_weekend indicators closes micro_features = false := by
  unfold TA.should_wake_ai_weekend
  rw [if_pos h]

/-- Indicator record with RSI at the extreme value 95. -/
def c3Indicators : TA.TechnicalIndicators :=
  ⟨95, 1, 1, 11/10, 1, 9/10, 1/2, 100, 0, 1⟩

/-- Micro-features with micro-volatility 20 pips (above the 15-pip
threshold) and a 2% Friday gap. -/
noncomputable def c3Micro : TA.MicroFeatures := ⟨0, 20, 2⟩

/-- Witness for C3: RSI = 95, micro-volatility = 20 pips, threshold
15 pips ⇒ no wake. -/
theorem C3_micro_volatility_veto_witness :
    TA.should_wake_ai_weekend c3Indicators [2] c3Micro = false :=
  C3_micro_volatility_veto c3Indicators [2] c3Micro (by norm_num [c3Micro])

/-- C4: with 5 recent losses, 3 of them on signal "CALL", the risk
adjustment for a new "CALL" proposal carries a confidence penalty between
35 and the 40 cap, and `should_be_neutral` is set. -/
theorem C4_error_memory_penalty (ctx : EM.CurrentContext)
    (em : EM.ErrorMemorySnapshot)
    (h5 : em.total_recent_losses = 5)
    (hsig : ctx.signal = "CALL")
    (hcall : List.lookup "CALL" em.signal_distribution = some 3) :
    35 ≤ (EM.calculate_risk_adjustment ctx em).confidence_penalty ∧
    (EM.calculate_risk_adjustment ctx em).confidence_penalty ≤ 40 ∧
    (EM.calculate_risk_adjustment ctx em).should_be_neutral = true := by
  unfold EM.calculate_risk_adjustment
  rw [h5, hsig, hcall]
  simp only [decide_eq_true_eq]
  norm_num
  split_ifs <;> simp_all <;> omega

/-- Snapshot with 5 recent losses: 3 × CALL, 2 × PUT, both on the OTC
market state. -/
def c4Memory : EM.ErrorMemorySnapshot :=
  ⟨5, [("CALL", 3), ("PUT", 2)], [("OTC_ESTIMATED", 5)], [("RSI_Oversold", 3)], 1⟩

/-- Context proposing CALL on the real market. -/
def c4Context : EM.CurrentContext := ⟨"CALL", "REAL", "BB_Breakout"⟩

/-- Witness for C4 at a concrete snapshot and context. -/
theorem C4_error_memory_penalty_witness :
    35 ≤ (EM.calculate_risk_adjustment c4Context c4Memory).confidence_penalty ∧
    (EM.calculate_risk_adjustment c4Context c4Memory).confidence_penalty ≤ 40 ∧
    (EM.calculate_risk_adjustment c4Context c4Memory).should_be_neutral = true :=
  C4_error_memory_penalty c4Context c4Memory rfl rfl rfl

/-- C7: saving a daily risk record and reloading it on the same calendar
day returns it unchanged (all counters included); reloading on a later
day returns the freshly zeroed record. -/
theorem C7_daily_stats_roundtrip (stats : RM.DailyStats) (today : ℕ) :
    (stats.date = today →
      RM.load_daily_stats (RM.save_daily_stats stats) today = stats) ∧
    (stats.date < today →
      RM.load_daily_stats (RM.save_daily_stats stats) today =
        RM.fresh_daily_stats today) := by
  constructor
  · intro h
    simp [RM.load_daily_stats, RM.save_daily_stats, h]
  · intro h
    simp [RM.load_daily_stats, RM.save_daily_stats, Nat.ne_of_lt h]

/-- A populated daily record dated day 7. -/
def c7Stats : RM.DailyStats := ⟨7, 25, 1, 4, some 1000, [⟨10, "LOSS", 25⟩]⟩

/-- Witness for C7: same-day reload is the identity; next-day reload is
the zeroed record. -/
theorem C7_daily_stats_roundtrip_witness :
    RM.load_daily_stats (RM.save_daily_stats c7Stats) 7 = c7Stats ∧
    RM.load_daily_stats (RM.save_daily_stats c7Stats) 8 = RM.fresh_daily_stats 8 :=
  ⟨(C7_daily_stats_roundtrip c7Stats 7).1 rfl,
   (C7_daily_stats_roundtrip c7Stats 8).2 (by norm_num [c7Stats])⟩

/-- C8: every degenerate OTC candle synthesized by `_on_weekend_price`
has `open = high = low = close` and hence satisfies the candle invariant
`high ≥ max(open, close) ≥ min(open, close) ≥ low`, for every price and
every source tag. -/
theorem C8_degenerate_candle (symbol : String) (timestamp : ℕ) (price : ℚ)
    (source_tag : String) :
    (MDS.mk_weekend_tick symbol timestamp price source_tag).open_ = price ∧
    (MDS.mk_weekend_tick symbol timestamp price source_tag).high = price ∧
    (MDS.mk_weekend_tick symbol timestamp price source_tag).low = price ∧
    (MDS.mk_weekend_tick symbol timestamp price source_tag).close = price ∧
    max (MDS.mk_weekend_tick symbol timestamp price source_tag).open_
        (MDS.mk_weekend_tick symbol timestamp price source_tag).close ≤
      (MDS.mk_weekend_tick symbol timestamp price source_tag).high ∧
    min (MDS.mk_weekend_tick symbol timestamp price source_tag).open_
        (MDS.mk_weekend_tick symbol timestamp price source_tag).close ≤
      max (MDS.mk_weekend_tick symbol timestamp price source_tag).open_
        (MDS.mk_weekend_tick symbol timestamp price source_tag).close ∧
    (MDS.mk_weekend_tick symbol timestamp price source_tag).low ≤
      min (MDS.mk_weekend_tick symbol timestamp price source_tag).open_
        (MDS.mk_weekend_tick symbol timestamp price source_tag).close := by
  simp [MDS.mk_weekend_tick, min_le_max]

/-- C9: `is_market_open` is a total function of the timestamp
(weekday, hour); it is false all Saturday, false Sunday before 22:00,
true Sunday from 22:00, false Friday from 22:00, true Friday before
22:00, and true Monday–Thursday. -/
theorem C9_market_calendar (weekday hour : ℕ) :
    (weekday = 5 → MDS.is_market_open weekday hour = false) ∧
    (weekday = 6 → hour < 22 → MDS.is_market_open weekday hour = false) ∧
    (weekday = 6 → 22 ≤ hour → MDS.is_market_open weekday hour = true) ∧
    (weekday = 4 → 22 ≤ hour → MDS.is_market_open weekday hour = false) ∧
    (weekday = 4 → hour < 22 → MDS.is_market_open weekday hour = true) ∧
    (weekday ≤ 3 → MDS.is_market_open weekday hour = true) := by
  unfold MDS.is_market_open
  refine ⟨fun h => ?_, fun h h2 => ?_, fun h h2 => ?_, fun h h2 => ?_,
    fun h h2 => ?_, fun h => ?_⟩
  · subst h; simp
  · subst h; simp; omega
  · subst h; simp; omega
  · subst h; simp; omega
  · subst h; simp; omega
  · rw [if_neg (by omega), if_neg (by omega), if_neg (by omega)]

/-- Witness for C9 at one concrete hour of each calendar regime. -/
theorem C9_market_calendar_witness :
    MDS.is_market_open 5 12 = false ∧
    MDS.is_market_open 6 21 = false ∧
    MDS.is_market_open 6 22 = true ∧
    MDS.is_market_open 4 23 = false ∧
    MDS.is_market_open 4 10 = true ∧
    MDS.is_market_open 1 0 = true :=
  ⟨(C9_market_calendar 5 12).1 rfl,
   (C9_market_calendar 6 21).2.1 rfl (by norm_num),
   (C9_market_calendar 6 22).2.2.1 rfl (by norm_num),
   (C9_market_calendar 4 23).2.2.2.1 rfl (by norm_num),
   (C9_market_calendar 4 10).2.2.2.2.1 rfl (by norm_num),
   (C9_market_calendar 1 0).2.2.2.2.2 (by norm_num)⟩

/-- Stats at the consecutive-loss threshold whose cumulative loss has
also reached the daily ceiling (3 losses of 50). -/
def c2CeilingStats : RM.DailyStats := ⟨0, 150, 3, 3, none, []⟩

/-- C2 counterexample: with the consecutive-loss count at the threshold
(3) but the daily-loss ceiling also reached, `check_risk_approval`
returns `approved = false` through the daily-limit check, which
short-circuits *before* the consecutive-loss check; no cooldown
timestamp is set (`blocked_until` stays `none`), contradicting the
claimed unconditional side effect. -/
theorem C2_counterexample :
    (RM.check_risk_approval RM.defaultRiskConfig c2CeilingStats 0 "CALL" 90 1).1.approved
        = false ∧
    (RM.check_risk_approval RM.defaultRiskConfig c2CeilingStats 0 "CALL" 90 1).2.blocked_until
        = none := by
  decide

/-- C2 (amended): provided no cooldown is already active and the daily
ceiling has not been reached, a consecutive-loss count at the threshold
makes the next check return `approved = false` and set
`blocked_until = now + 30 min`; every check strictly before that instant
is then blocked, and from that instant on the temporary block is clear,
so evaluation resumes with the remaining checks. -/
theorem C2_consecutive_loss_cooldown (stats : RM.DailyStats) (now : ℕ)
    (d : String) (c v : ℚ)
    (hnb : RM.is_temporarily_blocked stats now = false)
    (hloss : stats.total_loss < 100)
    (hcl : 3 ≤ stats.consecutive_losses) :
    (RM.check_risk_approval RM.defaultRiskConfig stats now d c v).1.approved = false ∧
    (RM.check_risk_approval RM.defaultRiskConfig stats now d c v).2.blocked_until
        = some (now + 1800) ∧
    (∀ t d2 c2 v2, t < now + 1800 →
      (RM.check_risk_approval RM.defaultRiskConfig
        (RM.check_risk_approval RM.defaultRiskConfig stats now d c v).2
        t d2 c2 v2).1.approved = false) ∧
    (∀ t, now + 1800 ≤ t →
      RM.is_temporarily_blocked
        (RM.check_risk_approval RM.defaultRiskConfig stats now d c v).2 t = false) := by
  have hres : RM.check_risk_approval RM.defaultRiskConfig stats now d c v =
      (⟨false, .consecutiveLossesCooldown 3, .high⟩, RM.apply_cooldown stats now 30) := by
    unfold RM.check_risk_approval
    rw [hnb]
    simp only [Bool.false_eq_true, if_false, RM.defaultRiskConfig]
    rw [if_neg (not_le.mpr hloss), if_pos hcl]
  refine ⟨by rw [hres], by rw [hres]; simp [RM.apply_cooldown], ?_, ?_⟩
  · intro t d2 c2 v2 ht
    rw [hres]
    unfold RM.check_risk_approval
    rw [if_pos]
    simp [RM.is_temporarily_blocked, RM.apply_cooldown]
    omega
  · intro t ht
    rw [hres]
    simp [RM.is_temporarily_blocked, RM.apply_cooldown]
    omega

/-- Stats after exactly 3 recorded losses of 10: at the threshold, below
the daily ceiling, not blocked. -/
def c2Stats : RM.DailyStats := ⟨0, 30, 3, 3, none, []⟩

/-- Witness for C2 (amended) at a concrete state and clock. -/
theorem C2_consecutive_loss_cooldown_witness :
    (RM.check_risk_approval RM.defaultRiskConfig c2Stats 1000 "CALL" 90 1).1.approved = false ∧
    (RM.check_risk_approval RM.defaultRiskConfig c2Stats 1000 "CALL" 90 1).2.blocked_until
        = some 2800 ∧
    (RM.check_risk_approval RM.defaultRiskConfig
      (RM.check_risk_approval RM.defaultRiskConfig c2Stats 1000 "CALL" 90 1).2
      2000 "CALL" 90 1).1.approved = false ∧
    RM.is_temporarily_blocked
      (RM.check_risk_approval RM.defaultRiskConfig c2Stats 1000 "CALL" 90 1).2 2800 = false := by
  have h := C2_consecutive_loss_cooldown c2Stats 1000 "CALL" 90 1
    (by decide) (by decide) (by decide)
  exact ⟨h.1, h.2.1, h.2.2.1 2000 "CALL" 90 1 (by norm_num), h.2.2.2 2800 (by norm_num)⟩

/-- C6 counterexample: a call to `_handle_live_market` at a closed-market
time (Saturday noon) returns normally after flipping the mode to
weekend — it neither reaches the `self.symbol` read nor raises
`AttributeError`, contradicting the claim's "any call". -/
theorem C6_counterexample :
    MDS.handle_live_market_body (MDS.init_stream "EURUSD") 5 12 [] =
      Except.ok { MDS.init_stream "EURUSD" with market_mode := MDS.MarketMode.weekend_otc } ∧
    MDS.handle_live_market (MDS.init_stream "EURUSD") 5 12 [] =
      { MDS.init_stream "EURUSD" with market_mode := MDS.MarketMode.weekend_otc } := by
  constructor <;> rfl

/-- C6 (amended): for every stream state built by `__init__` (which never
assigns `self.symbol`), `stop_stream` and `get_buffer_status`
unconditionally reach the `self.symbol` read and raise `AttributeError`;
`_handle_live_market` reaches the read only when the market is open, and
there its blanket `except` swallows the `AttributeError`, so the call
returns normally with the state unchanged; when the market is closed it
flips to weekend mode without reading `self.symbol`. -/
theorem C6_symbol_never_assigned (sym : String) (weekday hour : ℕ)
    (rows : List MDS.CandleRow) :
    MDS.stop_stream (MDS.init_stream sym) = Except.error MDS.PyErr.attributeError ∧
    MDS.get_buffer_status (MDS.init_stream sym) weekday hour =
      Except.error MDS.PyErr.attributeError ∧
    (MDS.is_market_open weekday hour = true →
      MDS.handle_live_market_body (MDS.init_stream sym) weekday hour rows =
        Except.error MDS.PyErr.attributeError) ∧
    (MDS.is_market_open weekday hour = true →
      MDS.handle_live_market (MDS.init_stream sym) weekday hour rows =
        MDS.init_stream sym) ∧
    (MDS.is_market_open weekday hour = false →
      MDS.handle_live_market_body (MDS.init_stream sym) weekday hour rows =
        Except.ok { MDS.init_stream sym with market_mode := MDS.MarketMode.weekend_otc }) := by
  refine ⟨rfl, rfl, fun h => ?_, fun h => ?_, fun h => ?_⟩
  · unfold MDS.handle_live_market_body
    rw [h]
    rfl
  · unfold MDS.handle_live_market MDS.handle_live_market_body
    rw [h]
    rfl
  · unfold MDS.handle_live_market_body
    rw [h]
    rfl

/-- Witness for C6 (amended) at symbol "EURUSD", Tuesday 10:00 (market
open) with an arbitrary fetched window. -/
theorem C6_symbol_never_assigned_witness :
    MDS.stop_stream (MDS.init_stream "EURUSD") = Except.error MDS.PyErr.attributeError ∧
    MDS.get_buffer_status (MDS.init_stream "EURUSD") 1 10 =
      Except.error MDS.PyErr.attributeError ∧
    MDS.handle_live_market_body (MDS.init_stream "EURUSD") 1 10 [] =
      Except.error MDS.PyErr.attributeError ∧
    MDS.handle_live_market (MDS.init_stream "EURUSD") 1 10 [] =
      MDS.init_stream "EURUSD" := by
  have h := C6_symbol_never_assigned "EURUSD" 1 10 []
  exact ⟨h.1, h.2.1, h.2.2.1 rfl, h.2.2.2.1 rfl⟩

/-- C10 counterexample: with fewer than two buffered weekend samples the
gap is returned *unrounded*; at reference 3 and sample 1 the exact gap
`−200/3` differs from its 4-decimal rounding `−66.6667`. -/
theorem C10_counterexample :
    (TA.calculate_micro_features [] 3 1).gap_friday ≠
      TA.pyRound ((1 - 3) / 3 * 100) 4 := by
  have hgap : (TA.calculate_micro_features [] 3 1).gap_friday = (1 - 3) / 3 * 100 := by
    unfold TA.calculate_micro_features
    rw [if_pos (by norm_num)]
    dsimp only
    rw [if_neg (by norm_num : ¬ (3:ℚ) = 0)]
  have hx : ((1:ℚ) - 3) / 3 * 100 * 10 ^ (4:ℕ) = -2000000/3 := by norm_num
  have hfl : TA.ratFloor (-2000000/3 : ℚ) = -666667 := by
    unfold TA.ratFloor
    rw [Int.floor_eq_iff]
    constructor <;> norm_num
  have hr : TA.pyRound ((1 - 3) / 3 * 100) 4 = -666667/10000 := by
    simp only [TA.pyRound, TA.roundHalfEven]
    rw [hx, hfl]
    norm_num
  rw [hgap, hr]
  norm_num

/-- C10 (amended): once the weekend buffer holds at least two samples,
the gap feature for a positive Friday reference close and a positive
current sample equals `((sample − reference)/reference)·100` rounded to
4 decimal places. -/
theorem C10_gap_rounded (weekend_prices : List ℚ)
    (friday_close current_price : ℚ)
    (hlen : 2 ≤ weekend_prices.length)
    (hf : 0 < friday_close) (hc : 0 < current_price) :
    (TA.calculate_micro_features weekend_prices friday_close current_price).gap_friday =
      TA.pyRound ((current_price - friday_close) / friday_close * 100) 4 := by
  unfold TA.calculate_micro_features
  rw [if_neg (by omega)]
  dsimp only
  rw [if_pos ⟨hf, hc⟩]

/-- Witness for C10 (amended): reference 1.08450, sample 1.08558 ⇒ the
stored gap is the rounded value, and that value is +0.0996. -/
theorem C10_gap_rounded_witness :
    (TA.calculate_micro_features [2169/2000, 54279/50000]
        (2169/2000) (54279/50000)).gap_friday =
      TA.pyRound ((54279/50000 - 2169/2000) / (2169/2000) * 100) 4 ∧
    TA.pyRound ((54279/50000 - 2169/2000) / (2169/2000) * 100) 4 = 996 / 10000 := by
  refine ⟨C10_gap_rounded [2169/2000, 54279/50000] (2169/2000) (54279/50000)
      (by norm_num) (by norm_num) (by norm_num), ?_⟩
  have hx : ((54279:ℚ)/50000 - 2169/2000) / (2169/2000) * 100 * 10 ^ (4:ℕ)
      = 240000/241 := by norm_num
  have hfl : TA.ratFloor (240000/241 : ℚ) = 995 := by
    unfold TA.ratFloor
    rw [Int.floor_eq_iff]
    constructor <;> norm_num
  simp only [TA.pyRound, TA.roundHalfEven]
  rw [hx, hfl]
  norm_num

/-- On a constant price history of length ≥ 15 every delta is zero, so
the final rolling gain and loss means are both zero and the pandas
`rs = 0/0` propagates NaN into the returned RSI. -/
theorem rsi_replicate_nan (c : ℚ) (n : ℕ) (hn : 15 ≤ n) :
    TA.calculate_rsi (List.replicate n c) 14 = TA.PFloat.nan := by
  unfold TA.calculate_rsi
  rw [if_neg (by rw [List.length_replicate]; omega)]
  have hd : TA.diffs (List.replicate n c) = List.replicate (n - 1) 0 := by
    unfold TA.diffs
    rw [List.tail_replicate, List.zipWith_replicate,
      min_eq_left (Nat.sub_le n 1), sub_self]
  dsimp only
  rw [hd]
  simp [TA.lastN, TA.rsiFromGainLoss, List.map_replicate, List.drop_replicate,
    List.sum_replicate]

/-- Bollinger bands collapse to `(c, c, c)` on a constant history of
length ≥ 20: the final window's mean is `c` and its sample standard
deviation is `√0 = 0`. -/
theorem bb_replicate_const (c : ℚ) (n : ℕ) (hn : 20 ≤ n) :
    TA.calculate_bollinger_bands (List.replicate n c) 20 2 =
      ((c : ℝ), (c : ℝ), (c : ℝ)) := by
  have hw : TA.lastN 20 (List.replicate n c) = List.replicate 20 c := by
    unfold TA.lastN
    rw [List.length_replicate, List.drop_replicate]
    congr 1
    omega
  have hm : TA.mean (List.replicate 20 c) = c := by
    unfold TA.mean
    rw [List.sum_replicate, List.length_replicate, nsmul_eq_mul]
    exact mul_div_cancel_left₀ c (by norm_num)
  have hv : TA.sampleVar (List.replicate 20 c) = 0 := by
    unfold TA.sampleVar
    rw [if_neg (by rw [List.length_replicate]; omega)]
    simp only [hm, sub_self, List.map_replicate]
    simp [List.sum_replicate]
  unfold TA.calculate_bollinger_bands
  rw [if_neg (by rw [List.length_replicate]; omega)]
  dsimp only
  rw [hw, hm, hv]
  norm_num

/-- C5 counterexample: on a constant history of 20 candles the RSI
computation evaluates to NaN (the pandas `0/0`), not to the claimed
neutral 50. -/
theorem C5_counterexample :
    TA.calculate_rsi (List.replicate 20 (1:ℚ)) 14 ≠ TA.PFloat.num 50 := by
  rw [rsi_replicate_nan 1 20 (by norm_num)]
  decide

/-- C5 (amended): on a constant close-price history of length ≥ 20 the
Bollinger band position is 0.5 as claimed, but the RSI is NaN — the
zero-loss `0/0` propagates; the neutral-50 default applies only to
histories shorter than `period + 1 = 15`. -/
theorem C5_constant_history (c : ℚ) (n : ℕ) (hn : 20 ≤ n) :
    TA.calculate_rsi (List.replicate n c) 14 = TA.PFloat.nan ∧
    TA.calculate_bb_position c
      (TA.calculate_bollinger_bands (List.replicate n c) 20 2).1
      (TA.calculate_bollinger_bands (List.replicate n c) 20 2).2.2 = 1 / 2 := by
  refine ⟨rsi_replicate_nan c n (by omega), ?_⟩
  rw [bb_replicate_const c n hn]
  simp [TA.calculate_bb_position]

/-- Witness for C5 (amended) on the constant history of 20 ones. -/
theorem C5_constant_history_witness :
    TA.calculate_rsi (List.replicate 20 (1:ℚ)) 14 = TA.PFloat.nan ∧
    TA.calculate_bb_position 1
      (TA.calculate_bollinger_bands (List.replicate 20 (1:ℚ)) 20 2).1
      (TA.calculate_bollinger_bands (List.replicate 20 (1:ℚ)) 20 2).2.2 = 1 / 2 :=
  C5_constant_history 1 20 (by norm_num)

/-- Adversarial indicator record: `volume_ratio = −10` (all other signals
neutral, volatility percentile 100, structure score 0). -/
def c1AdvIndicators : PE.QuantitativeIndicators :=
  { ema_fast := 0, ema_slow := 0, ema_signal := 0, sma_20 := 0, sma_50 := 0
    trend_strength := 0, rsi := 50, rsi_normalized := 0, momentum := 0
    momentum_normalized := 0, roc := 0, bb_upper := 0, bb_middle := 0
    bb_lower := 0, bb_position := 1/2, bb_squeeze := 0, zscore := 0
    volume_sma := 0, volume_ratio := -10, vwap := 0, vwap_signal := 0
    atr := 0, atr_normalized := 0, volatility := 0, volatility_percentile := 100
    support_resistance_score := 0, fractal_dimension := 0, hurst_exponent := 0 }

/-- The uniform weight configuration (each 1/6; sums to 1). -/
def uniformWeights : PE.Weights := ⟨1/6, 1/6, 1/6, 1/6, 1/6, 1/6⟩

/-- A regime record (ignored by `calculate_probability_scores`). -/
def c1Regime : PE.MarketRegime := ⟨"sideways", 0, "low", "low", "accumulation", 0⟩

/-- C1 counterexample: with weights summing to 1, an adversarial
`volume_ratio = −10` makes the volume sub-score −500 (it is only capped
above, never clamped below) and drives the total score below 0 — the
claimed [0,100] bound and the claimed independent clamping of all six
sub-scores both fail. -/
theorem C1_counterexample :
    (uniformWeights.trend + uniformWeights.momentum + uniformWeights.mean_reversion +
      uniformWeights.volume + uniformWeights.volatility + uniformWeights.structureW = 1) ∧
    (PE.calculate_probability_scores uniformWeights c1AdvIndicators c1Regime).volume_score < 0 ∧
    (PE.calculate_probability_scores uniformWeights c1AdvIndicators c1Regime).total_score < 0 := by
  refine ⟨by norm_num [uniformWeights], ?_, ?_⟩ <;>
    norm_num [PE.calculate_probability_scores, uniformWeights, c1AdvIndicators]

/-- C1 (amended): the trend, momentum, mean-reversion and volatility
sub-scores are each clamped to [0,100]; the volume sub-score is only
capped above by `min(volume_ratio·50, 100)` and the structure sub-score
is the support/resistance score verbatim.  If the six weights are
nonnegative and sum to 1, `volume_ratio ≥ 0`, and the
support/resistance score lies in [0,100], then all six sub-scores and
the weighted total score lie in [0,100]. -/
theorem C1_total_score_bounds (w : PE.Weights)
    (ind : PE.QuantitativeIndicators) (reg : PE.MarketRegime)
    (hsum : w.trend + w.momentum + w.mean_reversion + w.volume +
      w.volatility + w.structureW = 1)
    (hw1 : 0 ≤ w.trend) (hw2 : 0 ≤ w.momentum) (hw3 : 0 ≤ w.mean_reversion)
    (hw4 : 0 ≤ w.volume) (hw5 : 0 ≤ w.volatility) (hw6 : 0 ≤ w.structureW)
    (hvr : 0 ≤ ind.volume_ratio)
    (hs0 : 0 ≤ ind.support_resistance_score)
    (hs1 : ind.support_resistance_score ≤ 100) :
    (0 ≤ (PE.calculate_probability_scores w ind reg).total_score ∧
      (PE.calculate_probability_scores w ind reg).total_score ≤ 100) ∧
    (0 ≤ (PE.calculate_probability_scores w ind reg).trend_score ∧
      (PE.calculate_probability_scores w ind reg).trend_score ≤ 100) ∧
    (0 ≤ (PE.calculate_probability_scores w ind reg).momentum_score ∧
      (PE.calculate_probability_scores w ind reg).momentum_score ≤ 100) ∧
    (0 ≤ (PE.calculate_probability_scores w ind reg).mean_reversion_score ∧
      (PE.calculate_probability_scores w ind reg).mean_reversion_score ≤ 100) ∧
    (0 ≤ (PE.calculate_probability_scores w ind reg).volume_score ∧
      (PE.calculate_probability_scores w ind reg).volume_score ≤ 100) ∧
    (0 ≤ (PE.calculate_probability_scores w ind reg).volatility_score ∧
      (PE.calculate_probability_scores w ind reg).volatility_score ≤ 100) ∧
    (0 ≤ (PE.calculate_probability_scores w ind reg).structure_score ∧
      (PE.calculate_probability_scores w ind reg).structure_score ≤ 100) := by
  have hclamp : ∀ x : ℚ, 0 ≤ max 0 (min 100 x) ∧ max 0 (min 100 x) ≤ 100 :=
    fun x => ⟨le_max_left _ _, max_le (by norm_num) (min_le_left _ _)⟩
  have b1 : 0 ≤ (PE.calculate_probability_scores w ind reg).trend_score ∧
      (PE.calculate_probability_scores w ind reg).trend_score ≤ 100 := by
    have he : (PE.calculate_probability_scores w ind reg).trend_score =
        max 0 (min 100 (50 + ind.ema_signal * 25 + ind.vwap_signal * 25)) := rfl
    rw [he]; exact hclamp _
  have b2 : 0 ≤ (PE.calculate_probability_scores w ind reg).momentum_score ∧
      (PE.calculate_probability_scores w ind reg).momentum_score ≤ 100 := by
    have he : (PE.calculate_probability_scores w ind reg).momentum_score =
        max 0 (min 100 (((50 + ind.rsi_normalized * 30) +
          (50 + ind.momentum_normalized * 50)) / 2)) := rfl
    rw [he]; exact hclamp _
  have b3 : 0 ≤ (PE.calculate_probability_scores w ind reg).mean_reversion_score ∧
      (PE.calculate_probability_scores w ind reg).mean_reversion_score ≤ 100 := by
    have he : (PE.calculate_probability_scores w ind reg).mean_reversion_score =
        max 0 (min 100 (|ind.bb_position - 1 / 2| * 100 + min (|ind.zscore| * 20) 50)) := rfl
    rw [he]; exact hclamp _
  have b4 : 0 ≤ (PE.calculate_probability_scores w ind reg).volume_score ∧
      (PE.calculate_probability_scores w ind reg).volume_score ≤ 100 := by
    have he : (PE.calculate_probability_scores w ind reg).volume_score =
        min (ind.volume_ratio * 50) 100 := rfl
    rw [he]
    exact ⟨le_min (by positivity) (by norm_num), min_le_right _ _⟩
  have b5 : 0 ≤ (PE.calculate_probability_scores w ind reg).volatility_score ∧
      (PE.calculate_probability_scores w ind reg).volatility_score ≤ 100 := by
    have he : (PE.calculate_probability_scores w ind reg).volatility_score =
        max 0 (min 100 (100 - ind.volatility_percentile)) := rfl
    rw [he]; exact hclamp _
  have b6 : 0 ≤ (PE.calculate_probability_scores w ind reg).structure_score ∧
      (PE.calculate_probability_scores w ind reg).structure_score ≤ 100 := by
    have he : (PE.calculate_probability_scores w ind reg).structure_score =
        ind.support_resistance_score := rfl
    rw [he]; exact ⟨hs0, hs1⟩
  have htot : (PE.calculate_probability_scores w ind reg).total_score =
      (PE.calculate_probability_scores w ind reg).trend_score * w.trend +
      (PE.calculate_probability_scores w ind reg).momentum_score * w.momentum +
      (PE.calculate_probability_scores w ind reg).mean_reversion_score * w.mean_reversion +
      (PE.calculate_probability_scores w ind reg).volume_score * w.volume +
      (PE.calculate_probability_scores w ind reg).volatility_score * w.volatility +
      (PE.calculate_probability_scores w ind reg).structure_score * w.structureW := rfl
  refine ⟨⟨?_, ?_⟩, b1, b2, b3, b4, b5, b6⟩
  · rw [htot]
    have p1 := mul_nonneg b1.1 hw1
    have p2 := mul_nonneg b2.1 hw2
    have p3 := mul_nonneg b3.1 hw3
    have p4 := mul_nonneg b4.1 hw4
    have p5 := mul_nonneg b5.1 hw5
    have p6 := mul_nonneg b6.1 hw6
    linarith
  · rw [htot]
    have q1 := mul_le_mul_of_nonneg_right b1.2 hw1
    have q2 := mul_le_mul_of_nonneg_right b2.2 hw2
    have q3 := mul_le_mul_of_nonneg_right b3.2 hw3
    have q4 := mul_le_mul_of_nonneg_right b4.2 hw4
    have q5 := mul_le_mul_of_nonneg_right b5.2 hw5
    have q6 := mul_le_mul_of_nonneg_right b6.2 hw6
    linarith

/-- Benign indicator record: nonnegative volume ratio, structure score 50. -/
def c1BenignIndicators : PE.QuantitativeIndicators :=
  { ema_fast := 0, ema_slow := 0, ema_signal := 1/2, sma_20 := 0, sma_50 := 0
    trend_strength := 50, rsi := 60, rsi_normalized := 1/5, momentum := 0
    momentum_normalized := 1/10, roc := 0, bb_upper := 0, bb_middle := 0
    bb_lower := 0, bb_position := 7/10, bb_squeeze := 0, zscore := 1
    volume_sma := 0, volume_ratio := 1, vwap := 0, vwap_signal := 1/4
    atr := 0, atr_normalized := 0, volatility := 0, volatility_percentile := 40
    support_resistance_score := 50, fractal_dimension := 0, hurst_exponent := 0 }

/-- Witness for C1 (amended) at uniform weights and a benign indicator
record. -/
theorem C1_total_score_bounds_witness :
    (0 ≤ (PE.calculate_probability_scores uniformWeights c1BenignIndicators c1Regime).total_score ∧
      (PE.calculate_probability_scores uniformWeights c1BenignIndicators c1Regime).total_score ≤ 100) ∧
    (0 ≤ (PE.calculate_probability_scores uniformWeights c1BenignIndicators c1Regime).trend_score ∧
      (PE.calculate_probability_scores uniformWeights c1BenignIndicators c1Regime).trend_score ≤ 100) ∧
    (0 ≤ (PE.calculate_probability_scores uniformWeights c1BenignIndicators c1Regime).momentum_score ∧
      (PE.calculate_probability_scores uniformWeights c1BenignIndicators c1Regime).momentum_score ≤ 100) ∧
    (0 ≤ (PE.calculate_probability_scores uniformWeights c1BenignIndicators c1Regime).mean_reversion_score ∧
      (PE.calculate_probability_scores uniformWeights c1BenignIndicators c1Regime).mean_reversion_score ≤ 100) ∧
    (0 ≤ (PE.calculate_probability_scores uniformWeights c1BenignIndicators c1Regime).volume_score ∧
      (PE.calculate_probability_scores uniformWeights c1BenignIndicators c1Regime).volume_score ≤ 100) ∧
    (0 ≤ (PE.calculate_probability_scores uniformWeights c1BenignIndicators c1Regime).volatility_score ∧
      (PE.calculate_probability_scores uniformWeights c1BenignIndicators c1Regime).volatility_score ≤ 100) ∧
    (0 ≤ (PE.calculate_probability_scores uniformWeights c1BenignIndicators c1Regime).structure_score ∧
      (PE.calculate_probability_scores uniformWeights c1BenignIndicators c1Regime).structure_score ≤ 100) :=
  C1_total_score_bounds uniformWeights c1BenignIndicators c1Regime
    (by norm_num [uniformWeights]) (by norm_num [uniformWeights])
    (by norm_num [uniformWeights]) (by norm_num [uniformWeights])
    (by norm_num [uniformWeights]) (by norm_num [uniformWeights])
    (by norm_num [uniformWeights]) (by norm_num [c1BenignIndicators])
    (by norm_num [c1BenignIndicators]) (by norm_num [c1BenignIndicators])
